import Mathlib

/-!
Verification development for the mcp-pointer-VPS Chrome extension core:
URL-based route matching (`findMatchingRoute`), endpoint resolution
(`getEndpointForUrl` / `extractHostFromUrl`), the WebSocket connection
lifecycle manager (`ElementSenderService`), and the per-tab route tracking
store in the background service worker.

JavaScript numbers are modelled as rationals (ℚ): every operation the code
performs on ports (equality, order comparisons) is exact on IEEE doubles in
the relevant range, and ℚ faithfully represents the fractional values a
`number`-typed field can hold.  JS strings are modelled as Lean strings;
`String.prototype.includes` becomes infix testing on the character list.

Platform services that are not code of this repository are modelled as
explicit oracles passed to the embedded functions:
  * the `RegExp` engine: an oracle `rx : String → Option (String → Bool)`
    where `rx pattern = none` models `new RegExp(pattern)` throwing
    (invalid regex) and `some test` models a successfully compiled regex;
  * the WHATWG URL parser backing `new URL(url).hostname`: an oracle
    `parseHost : String → Option String` where `none` models the
    constructor throwing and `some h` successful parsing with hostname `h`
    (which the real parser can legitimately return as the empty string,
    e.g. for `file:` URLs).
-/

namespace MCPPointer

/-- JS `s.includes(sub)`: `sub` occurs as a contiguous substring of `s`. -/
def jsIncludes (s sub : String) : Bool :=
  decide (sub.toList <:+: s.toList)

/-- JS `s.trim()`: strip leading and trailing whitespace. -/
def jsTrim (s : String) : String :=
  String.mk
    (((s.toList.dropWhile Char.isWhitespace).reverse.dropWhile
        Char.isWhitespace).reverse)

/-- The `patternType` field of a route: `'port' | 'contains' | 'regex'`. -/
inductive PatternType where
  | port
  | contains
  | regex
deriving DecidableEq

/-- `RouteConfig` from `packages/chrome-extension/src/utils/config.ts`. -/
structure RouteConfig where
  id : String
  name : String
  pattern : String
  patternType : PatternType
  mcpPort : ℚ
  enabled : Bool
deriving DecidableEq

/-- The default-endpoint part of `ExtensionConfig` (`websocket: {host, port}`). -/
structure WebsocketConfig where
  host : String
  port : ℚ
deriving DecidableEq

/-- `ExtensionConfig` from `config.ts` (the `logger` field carries no
behaviour relevant to routing or sending and is omitted). -/
structure ExtensionConfig where
  enabled : Bool
  autoRouting : Bool
  websocket : WebsocketConfig
  routes : List RouteConfig
deriving DecidableEq

/-- The `switch (route.patternType)` body of `findMatchingRoute`:
the pattern test for one route.  `rx` is the `RegExp` oracle; the
`try { ... } catch { matches = false }` around regex compilation becomes
the `none => false` branch. -/
def routeTest (rx : String → Option (String → Bool)) (url : String)
    (route : RouteConfig) : Bool :=
  match route.patternType with
  | .port => jsIncludes url (":" ++ route.pattern)
  | .contains => jsIncludes url route.pattern
  | .regex =>
    match rx route.pattern with
    | some test => test url
    | none => false

/-- `findMatchingRoute(url, routes)` from `config.ts`: iterate the routes in
order, `continue` past disabled ones, return the first whose pattern test
succeeds, `null` if none does. -/
def findMatchingRoute (rx : String → Option (String → Bool)) (url : String) :
    List RouteConfig → Option RouteConfig
  | [] => none
  | route :: rest =>
    if route.enabled = false then findMatchingRoute rx url rest
    else if routeTest rx url route then some route
    else findMatchingRoute rx url rest

/-- `extractHostFromUrl(url)` from `config.ts`: `new URL(url).hostname`
inside `try`, `null` on a parse exception.  `parseHost` is the URL-parser
oracle. -/
def extractHostFromUrl (parseHost : String → Option String) (url : String) :
    Option String :=
  parseHost url

/-- JS `extractedHost || defaultHost` where `extractedHost : string | null`:
falls back when the left side is `null` or the empty string (both falsy). -/
def jsOrDefault (s : Option String) (d : String) : String :=
  match s with
  | some h => if h = "" then d else h
  | none => d

/-- The `{host, port, route}` triple returned by `getEndpointForUrl`
(the spec's `ResolvedEndpoint`). -/
structure ResolvedEndpoint where
  host : String
  port : ℚ
  route : Option RouteConfig
deriving DecidableEq

/-- `getEndpointForUrl(url)` from the background service worker: extract the
host from the URL (falling back to the configured default via JS `||`),
then pick the port from the first matching route when `autoRouting` is on,
else the default port. -/
def getEndpointForUrl (parseHost : String → Option String)
    (rx : String → Option (String → Bool)) (cfg : ExtensionConfig)
    (url : String) : ResolvedEndpoint :=
  let extractedHost := extractHostFromUrl parseHost url
  let host := jsOrDefault extractedHost cfg.websocket.host
  if cfg.autoRouting = false then
    { host := host, port := cfg.websocket.port, route := none }
  else
    match findMatchingRoute rx url cfg.routes with
    | some matchedRoute =>
      { host := host, port := matchedRoute.mcpPort, route := some matchedRoute }
    | none => { host := host, port := cfg.websocket.port, route := none }

/-! ## Connection lifecycle manager (`ElementSenderService`)

The service is embedded as an explicit state machine.  A socket is given an
identity (a number drawn from a per-state counter) so that "which socket a
frame was transmitted over" is observable; `isOpen` models
`readyState === WebSocket.OPEN`.  Each operation returns the successor
state together with the ordered list of observable events it produced
(status callbacks, socket creation/closure, frame transmission, idle-timer
cancellation/start).  Asynchronous outcomes that are decided by the
platform, not by this code — whether the socket reaches Open within the
connection timeout, and whether `ws.send` throws — are supplied by a
`SendEnv` oracle. -/

/-- The constants declared at the top of `ElementSenderService`
(milliseconds; the growth factor is dimensionless). -/
def IDLE_DURATION : ℕ := 10000

/-- `CONNECTION_TIMEOUT` from `ElementSenderService`. -/
def CONNECTION_TIMEOUT : ℕ := 10000

/-- `MAX_RECONNECTION_DELAY` from `ElementSenderService`. -/
def MAX_RECONNECTION_DELAY : ℕ := 10000

/-- `MIN_RECONNECTION_DELAY` from `ElementSenderService`. -/
def MIN_RECONNECTION_DELAY : ℕ := 1000

/-- `RECONNECTION_DELAY_GROW_FACTOR` from `ElementSenderService`. -/
def RECONNECTION_DELAY_GROW_FACTOR : ℚ := 3 / 2

/-- `MAX_RETRIES` from `ElementSenderService`. -/
def MAX_RETRIES : ℕ := 10

/-- `ConnectionStatus` values delivered to the status callback. -/
inductive ConnectionStatus where
  | CONNECTING
  | CONNECTED
  | SENDING
  | SENT
  | ERROR
deriving DecidableEq

/-- A WebSocket instance: its identity and whether it has reached Open. -/
structure Socket where
  id : ℕ
  isOpen : Bool
deriving DecidableEq

/-- The mutable fields of `ElementSenderService`: `ws`, `currentHost`,
`currentPort`, `idleTimeout` (whether an uncancelled idle timer is
pending), plus the fresh-socket counter `nextId` used to give sockets an
identity. -/
structure SenderState where
  ws : Option Socket
  currentHost : Option String
  currentPort : Option ℚ
  idleTimeout : Bool
  nextId : ℕ
deriving DecidableEq

/-- The state of a freshly constructed `ElementSenderService`. -/
def initialState : SenderState :=
  { ws := none, currentHost := none, currentPort := none,
    idleTimeout := false, nextId := 0 }

/-- Observable events of one operation, in emission order. -/
inductive Event where
  | status (s : ConnectionStatus)
  | created (sid : ℕ)
  | closed (sid : ℕ)
  | transmitted (sid : ℕ)
  | idleCleared
  | idleStarted
deriving DecidableEq

/-- Environment oracle for one `sendElement` call: whether a fresh socket
reaches Open within `CONNECTION_TIMEOUT`, and whether `ws.send` throws. -/
structure SendEnv where
  opensInTime : Bool
  sendThrows : Bool
deriving DecidableEq

/-- `clearIdleTimer()`: cancel the pending idle timer, if any. -/
def clearIdleTimer (st : SenderState) : SenderState × List Event :=
  if st.idleTimeout then ({ st with idleTimeout := false }, [.idleCleared])
  else (st, [])

/-- `startIdleTimer()`: arm a fresh idle-teardown timer of `IDLE_DURATION`
milliseconds (the source overwrites the handle without cancelling). -/
def startIdleTimer (st : SenderState) : SenderState × List Event :=
  ({ st with idleTimeout := true }, [.idleStarted])

/-- `disconnect()`: cancel the idle timer, then close and drop the socket
if one is present.  Idempotent when already disconnected. -/
def disconnect (st : SenderState) : SenderState × List Event :=
  let s1 := clearIdleTimer st
  match s1.1.ws with
  | some sock => ({ s1.1 with ws := none }, s1.2 ++ [.closed sock.id])
  | none => (s1.1, s1.2)

/-- `get isConnected()`: `ws?.readyState === WebSocket.OPEN`. -/
def isConnected (st : SenderState) : Bool :=
  match st.ws with
  | some sock => sock.isOpen
  | none => false

/-- `handleConnectionChange(host, port)`: validate host (`!host ||
host.trim() === ''`) and port (`!port || port <= 0 || port > 65535`),
emitting `ERROR` and returning `false` on violation; on first use adopt
the target; on a target change `disconnect()` the old connection before
adopting the new target. -/
def handleConnectionChange (host : String) (port : ℚ) (st : SenderState) :
    Bool × SenderState × List Event :=
  if host = "" ∨ jsTrim host = "" then
    (false, st, [.status .ERROR])
  else if port = 0 ∨ port ≤ 0 ∨ 65535 < port then
    (false, st, [.status .ERROR])
  else if st.currentHost = none ∧ st.currentPort = none then
    (true, { st with currentHost := some host, currentPort := some port }, [])
  else if st.currentHost ≠ some host ∨ st.currentPort ≠ some port then
    let d := disconnect st
    (true, { d.1 with currentHost := some host, currentPort := some port }, d.2)
  else
    (true, st, [])

/-- `ensureConnection(host, port)`: run `handleConnectionChange`; when not
connected, emit `CONNECTING`, create a fresh socket and wait for it to
open (`waitForConnection`, outcome given by `env.opensInTime`); on timeout
emit `ERROR`, `disconnect()` and fail; once a connection is available emit
`CONNECTED`. -/
def ensureConnection (host : String) (port : ℚ) (st : SenderState)
    (env : SendEnv) : Bool × SenderState × List Event :=
  let h := handleConnectionChange host port st
  if h.1 = false then (false, h.2.1, h.2.2)
  else if isConnected h.2.1 = false then
    let sock : Socket := { id := h.2.1.nextId, isOpen := env.opensInTime }
    let st2 : SenderState :=
      { h.2.1 with ws := some sock, nextId := h.2.1.nextId + 1 }
    let ev2 := h.2.2 ++ [.status .CONNECTING, .created sock.id]
    if env.opensInTime then (true, st2, ev2 ++ [.status .CONNECTED])
    else
      let d := disconnect st2
      (false, d.1, ev2 ++ [.status .ERROR] ++ d.2)
  else (true, h.2.1, h.2.2 ++ [.status .CONNECTED])

/-- `sendElement(element, host, port)`: clear the idle timer, ensure a
connection (dropping the send on failure), restart the idle timer, emit
`SENDING`, transmit the envelope, emit `SENT`; any exception from the
transmit is caught and reported as a single `ERROR`. -/
def sendElement (host : String) (port : ℚ) (st : SenderState)
    (env : SendEnv) : SenderState × List Event :=
  let c := clearIdleTimer st
  let e := ensureConnection host port c.1 env
  if e.1 = false then (e.2.1, c.2 ++ e.2.2)
  else
    let t := startIdleTimer e.2.1
    if env.sendThrows then
      (t.1, c.2 ++ e.2.2 ++ t.2 ++ [.status .SENDING, .status .ERROR])
    else
      match t.1.ws with
      | some sock =>
        (t.1, c.2 ++ e.2.2 ++ t.2 ++
          [.status .SENDING, .transmitted sock.id, .status .SENT])
      | none =>
        (t.1, c.2 ++ e.2.2 ++ t.2 ++ [.status .SENDING, .status .ERROR])

/-- The idle-teardown timer firing after `IDLE_DURATION` ms of inactivity:
the `setTimeout` callback runs `disconnect()`; a cancelled timer never
fires, so firing is only possible while a timer is pending. -/
def idleFire (st : SenderState) : SenderState × List Event :=
  if st.idleTimeout then disconnect st else (st, [])

/-- The status-callback trace contained in an event list. -/
def statusesOf : List Event → List ConnectionStatus
  | [] => []
  | .status s :: rest => s :: statusesOf rest
  | _ :: rest => statusesOf rest

/-- The socket-level events (creation, closure, transmission) of a trace. -/
def socketEvents : List Event → List Event
  | [] => []
  | .created sid :: rest => .created sid :: socketEvents rest
  | .closed sid :: rest => .closed sid :: socketEvents rest
  | .transmitted sid :: rest => .transmitted sid :: socketEvents rest
  | _ :: rest => socketEvents rest

/-- Whether a `sendElement` call with this target on this state will make
a fresh connection attempt (mirrors the path through `clearIdleTimer`,
`handleConnectionChange` and the `!this.isConnected` test in
`ensureConnection`). -/
def attemptsConnection (host : String) (port : ℚ) (st : SenderState) : Bool :=
  let h := handleConnectionChange host port (clearIdleTimer st).1
  h.1 && !(isConnected h.2.1)

/-! ## Route tracking store and dispatcher (background service worker) -/

/-- The `activeRoutes : Map<number, RouteConfig | null>` store, as a lookup
function: `none` means no entry for that tab. -/
def RouteStore : Type := ℤ → Option (Option RouteConfig)

/-- `Map.set`. -/
def storeSet (m : RouteStore) (k : ℤ) (v : Option RouteConfig) : RouteStore :=
  fun k2 => if k2 = k then some v else m k2

/-- `Map.delete`. -/
def storeDelete (m : RouteStore) (k : ℤ) : RouteStore :=
  fun k2 => if k2 = k then none else m k2

/-- The empty store. -/
def emptyStore : RouteStore := fun _ => none

/-- The route-tracking side effect of the `DOM_ELEMENT_POINTED` branch of
the message listener: resolve the endpoint for the URL, then
`if (tabId) activeRoutes.set(tabId, route)` — note the truthiness test on
the tab id. -/
def handleDomElementPointed (parseHost : String → Option String)
    (rx : String → Option (String → Bool)) (cfg : ExtensionConfig)
    (url : String) (tabId : Option ℤ) (activeRoutes : RouteStore) :
    RouteStore :=
  let ep := getEndpointForUrl parseHost rx cfg url
  match tabId with
  | some t => if t ≠ 0 then storeSet activeRoutes t ep.route else activeRoutes
  | none => activeRoutes

/-- The `chrome.tabs.onRemoved` listener: `activeRoutes.delete(tabId)`. -/
def handleTabRemoved (tabId : ℤ) (activeRoutes : RouteStore) : RouteStore :=
  storeDelete activeRoutes tabId

/-- The fixed status order of a fully successful send. -/
def fullStatusOrder : List ConnectionStatus :=
  [.CONNECTING, .CONNECTED, .SENDING, .SENT]

/-- The set of per-send status traces asserted by the strict reading of
the ordering claim: the full fixed order `CONNECTING, CONNECTED, SENDING,
SENT`, or a prefix of it truncated by a single `ERROR`.  This encodes the
claim's words, for comparison against the embedded code's actual traces. -/
def strictClaimedTrace (t : List ConnectionStatus) : Bool :=
  decide (t = fullStatusOrder)
    || (List.range 5).any
      (fun k => decide (t = fullStatusOrder.take k ++ [ConnectionStatus.ERROR]))

/-! ## Concrete fixtures used by witnesses and counterexamples -/

/-- A regex oracle under which no pattern compiles (enough for rules whose
pattern, like the spec's example `"(["`, is rejected by `new RegExp`). -/
def rxNone : String → Option (String → Bool) := fun _ => none

/-- URL-parser oracle for a URL whose WHATWG parse succeeds with an empty
hostname, as `new URL("file:///etc/hosts").hostname` does. -/
def parseEmptyHost : String → Option String := fun _ => some ""

/-- URL-parser oracle for the spec's example URL
`https://10.0.0.5:22002/x`, whose hostname is `10.0.0.5`. -/
def parseHost105 : String → Option String := fun _ => some "10.0.0.5"

/-- A disabled route whose pattern would match. -/
def rDisabled : RouteConfig :=
  { id := "r1", name := "disabled", pattern := "app",
    patternType := .contains, mcpPort := 7001, enabled := false }

/-- First of two overlapping enabled routes. -/
def rFirst : RouteConfig :=
  { id := "r2", name := "first", pattern := "app",
    patternType := .contains, mcpPort := 7002, enabled := true }

/-- Second of two overlapping enabled routes. -/
def rSecond : RouteConfig :=
  { id := "r3", name := "second", pattern := "app",
    patternType := .contains, mcpPort := 7003, enabled := true }

/-- An enabled regex route with the spec's invalid pattern. -/
def rBadRegex : RouteConfig :=
  { id := "bad", name := "bad-regex", pattern := "([",
    patternType := .regex, mcpPort := 7004, enabled := true }

/-- An enabled `contains` route with an empty pattern. -/
def rEmptyContains : RouteConfig :=
  { id := "ec", name := "empty-contains", pattern := "",
    patternType := .contains, mcpPort := 7005, enabled := true }

/-- An enabled `port` route with an empty pattern. -/
def rEmptyPort : RouteConfig :=
  { id := "ep", name := "empty-port", pattern := "",
    patternType := .port, mcpPort := 7006, enabled := true }

/-- The spec's example route: `{pattern:"22002", patternType:"port",
mcpPort:7022, enabled:true}`. -/
def r22002 : RouteConfig :=
  { id := "r22002", name := "dev", pattern := "22002",
    patternType := .port, mcpPort := 7022, enabled := true }

/-- The default config shipped in `config.ts` (no routes). -/
def cfg0 : ExtensionConfig :=
  { enabled := true, autoRouting := true,
    websocket := { host := "localhost", port := 7007 }, routes := [] }

/-- A config carrying the spec's example route. -/
def cfg22002 : ExtensionConfig :=
  { enabled := true, autoRouting := true,
    websocket := { host := "localhost", port := 7007 },
    routes := [r22002] }

/-- An environment in which the socket opens in time and the send does not
throw. -/
def envOK : SendEnv := { opensInTime := true, sendThrows := false }

/-- An environment in which the connection attempt never reaches Open
within `CONNECTION_TIMEOUT`. -/
def envTimeout : SendEnv := { opensInTime := false, sendThrows := false }

/-- `findMatchingRoute` is `List.find?` of "enabled and pattern test
succeeds" (shared characterization used by several theorems below). -/
theorem findMatchingRoute_eq_find (rx : String → Option (String → Bool))
    (url : String) (rules : List RouteConfig) :
    findMatchingRoute rx url rules =
      rules.find? (fun r => r.enabled && routeTest rx url r) := by
  induction rules with
  | nil => rfl
  | cons r rest ih =>
    by_cases he : r.enabled = false
    · simp [findMatchingRoute, he, List.find?, ih]
    · have he' : r.enabled = true := by
        cases h : r.enabled
        · exact absurd h he
        · rfl
      by_cases hm : routeTest rx url r
      · simp [findMatchingRoute, he', List.find?, hm]
      · simp [findMatchingRoute, he', List.find?, hm, ih]

/-- A singleton list is an infix of `l` iff its element is in `l`
(used to read `url.includes(":")` as "the URL contains a colon"). -/
theorem singleton_infix_iff_mem {α : Type} [DecidableEq α] (a : α)
    (l : List α) : [a] <:+: l ↔ a ∈ l := by
  constructor
  · intro h
    exact h.mem (by simp)
  · intro h
    rcases List.append_of_mem h with ⟨s, t, rfl⟩
    exact ⟨s, t, by simp⟩

/-- C1: for every URL and rule list, `findMatchingRoute` returns the first
enabled rule in list order whose pattern test succeeds (disabled rules
skipped, rules after the first match irrelevant to the result) and `none`
when no enabled rule's pattern test succeeds. -/
theorem c1_match_first_enabled (rx : String → Option (String → Bool))
    (url : String) (rules : List RouteConfig) :
    findMatchingRoute rx url rules =
        rules.find? (fun r => r.enabled && routeTest rx url r)
      ∧ (∀ pre r post, rules = pre ++ r :: post →
          r.enabled = true → routeTest rx url r = true →
          (∀ q ∈ pre, q.enabled = false ∨ routeTest rx url q = false) →
          findMatchingRoute rx url rules = some r
            ∧ ∀ post2, findMatchingRoute rx url (pre ++ r :: post2) = some r)
      ∧ (findMatchingRoute rx url rules = none ↔
          ∀ r ∈ rules, r.enabled = false ∨ routeTest rx url r = false) := by
  have hfind := findMatchingRoute_eq_find rx url
  refine ⟨hfind rules, ?_, ?_⟩
  · intro pre r post hrules hen htest hall
    have hpre : pre.find? (fun q => q.enabled && routeTest rx url q) = none := by
      rw [List.find?_eq_none]
      intro x hx
      rcases hall x hx with h | h <;> simp [h]
    have hcons : ∀ post2 : List RouteConfig,
        findMatchingRoute rx url (pre ++ r :: post2) = some r := by
      intro post2
      rw [hfind, List.find?_append, hpre]
      simp [List.find?_cons, hen, htest]
    exact ⟨hrules ▸ hcons post, hcons⟩
  · rw [hfind, List.find?_eq_none]
    constructor
    · intro h r hr
      have := h r hr
      revert this
      cases r.enabled <;> cases routeTest rx url r <;> simp
    · intro h r hr
      rcases h r hr with he | ht
      · simp [he]
      · simp [ht]

/-- C1 witness: with two overlapping enabled matches (after a disabled
rule), the first one in list order is returned. -/
theorem c1_match_first_enabled_witness :
    findMatchingRoute rxNone "https://app.example:3000/"
        [rDisabled, rFirst, rSecond] = some rFirst := by
  have h := (c1_match_first_enabled rxNone "https://app.example:3000/"
      [rDisabled, rFirst, rSecond]).2.1 [rDisabled] rFirst [rSecond]
      rfl (by decide) (by decide) (by decide)
  exact h.1

/-- C5: a rule of patternType `regex` whose pattern fails to compile is
treated as never-matching and is skipped, matching continuing with the
remaining rules; `findMatchingRoute` is a total function, so no exception
escapes it. -/
theorem c5_invalid_regex_skipped (rx : String → Option (String → Bool))
    (url : String) (before : List RouteConfig) (r : RouteConfig)
    (after : List RouteConfig) (hty : r.patternType = PatternType.regex)
    (hrx : rx r.pattern = none) :
    routeTest rx url r = false
      ∧ findMatchingRoute rx url (before ++ r :: after) =
          findMatchingRoute rx url (before ++ after) := by
  have ht : routeTest rx url r = false := by
    simp [routeTest, hty, hrx]
  refine ⟨ht, ?_⟩
  rw [findMatchingRoute_eq_find, findMatchingRoute_eq_find,
    List.find?_append, List.find?_append]
  have : (r :: after).find? (fun q => q.enabled && routeTest rx url q) =
      after.find? (fun q => q.enabled && routeTest rx url q) := by
    simp [List.find?_cons, ht]
  rw [this]

/-- C5 witness: the spec's invalid pattern `"(["` is skipped and the later
matching rule is still found. -/
theorem c5_invalid_regex_skipped_witness :
    rBadRegex.patternType = PatternType.regex
      ∧ rxNone rBadRegex.pattern = none
      ∧ routeTest rxNone "https://app.example:3000/" rBadRegex = false
      ∧ findMatchingRoute rxNone "https://app.example:3000/"
            ([rDisabled] ++ rBadRegex :: [rFirst]) =
          findMatchingRoute rxNone "https://app.example:3000/"
            ([rDisabled] ++ [rFirst]) := by
  have h := c5_invalid_regex_skipped rxNone "https://app.example:3000/"
      [rDisabled] rBadRegex [rFirst] rfl rfl
  exact ⟨rfl, rfl, h.1, h.2⟩

/-- C10: an enabled rule with empty pattern matches every URL when its
patternType is `contains` (so placed first it is always returned), and
with patternType `port` it matches exactly the URLs containing the
character `:` (placed first it is returned exactly for those URLs). -/
theorem c10_empty_pattern (rx : String → Option (String → Bool))
    (url : String) (r : RouteConfig) (rest : List RouteConfig)
    (hen : r.enabled = true) (hpat : r.pattern = "") :
    (r.patternType = PatternType.contains →
        routeTest rx url r = true
          ∧ findMatchingRoute rx url (r :: rest) = some r)
      ∧ (r.patternType = PatternType.port →
        routeTest rx url r = jsIncludes url ":"
          ∧ (jsIncludes url ":" = true ↔ ':' ∈ url.toList)
          ∧ (jsIncludes url ":" = true →
              findMatchingRoute rx url (r :: rest) = some r)
          ∧ (jsIncludes url ":" = false →
              findMatchingRoute rx url (r :: rest) =
                findMatchingRoute rx url rest)) := by
  constructor
  · intro hty
    have ht : routeTest rx url r = true := by
      simp [routeTest, hty, hpat, jsIncludes]
    refine ⟨ht, ?_⟩
    rw [findMatchingRoute_eq_find]
    simp [List.find?_cons, hen, ht]
  · intro hty
    have ht : routeTest rx url r = jsIncludes url ":" := by
      simp [routeTest, hty, hpat]
    have hcolon : jsIncludes url ":" = true ↔ ':' ∈ url.toList := by
      have : (":".toList : List Char) = [':'] := rfl
      rw [jsIncludes, this, decide_eq_true_iff]
      exact singleton_infix_iff_mem ':' url.toList
    refine ⟨ht, hcolon, ?_, ?_⟩
    · intro hc
      rw [findMatchingRoute_eq_find]
      simp [List.find?_cons, hen, ht, hc]
    · intro hc
      rw [findMatchingRoute_eq_find, findMatchingRoute_eq_find]
      simp [List.find?_cons, ht, hc]

/-- C10 witness: at `https://a:1/x` the empty-pattern `contains` rule and
the empty-pattern `port` rule are both returned when placed first; at the
colon-free text `nocolon` the `port` rule falls through to the rest. -/
theorem c10_empty_pattern_witness :
    (routeTest rxNone "https://a:1/x" rEmptyContains = true
        ∧ findMatchingRoute rxNone "https://a:1/x" [rEmptyContains] =
            some rEmptyContains)
      ∧ (findMatchingRoute rxNone "https://a:1/x" [rEmptyPort] =
            some rEmptyPort)
      ∧ (findMatchingRoute rxNone "nocolon" [rEmptyPort, rEmptyContains] =
            findMatchingRoute rxNone "nocolon" [rEmptyContains]) := by
  have h1 := (c10_empty_pattern rxNone "https://a:1/x" rEmptyContains []
      rfl rfl).1 rfl
  have h2 := (c10_empty_pattern rxNone "https://a:1/x" rEmptyPort []
      rfl rfl).2 rfl
  have h3 := (c10_empty_pattern rxNone "nocolon" rEmptyPort [rEmptyContains]
      rfl rfl).2 rfl
  exact ⟨h1, h2.2.2.1 (by decide), h3.2.2.2 (by decide)⟩

/-- C2 counterexample: `new URL("file:///etc/hosts")` parses successfully
with hostname `""`, yet `getEndpointForUrl` does not use that extracted
hostname — the JS `||` fallback also discards a successfully extracted
empty hostname, so the claim's "falling back only when URL parsing fails"
reading is violated. -/
theorem c2_resolve_counterexample :
    extractHostFromUrl parseEmptyHost "file:///etc/hosts" = some ""
      ∧ (getEndpointForUrl parseEmptyHost rxNone cfg0
            "file:///etc/hosts").host = "localhost"
      ∧ "localhost" ≠ ("" : String) := by
  refine ⟨rfl, rfl, by decide⟩

/-- C2 (amended): the resolved host is the URL's extracted hostname,
falling back to the configured default when parsing fails or when the
extracted hostname is empty; the port is the default when autoRouting is
off or no rule matches, and the matched rule's `mcpPort` (with that rule
recorded) when autoRouting is on and a rule matches. -/
theorem c2_resolve_characterization (parseHost : String → Option String)
    (rx : String → Option (String → Bool)) (cfg : ExtensionConfig)
    (url : String) :
    (getEndpointForUrl parseHost rx cfg url).host =
        jsOrDefault (extractHostFromUrl parseHost url) cfg.websocket.host
      ∧ (extractHostFromUrl parseHost url = none →
          (getEndpointForUrl parseHost rx cfg url).host = cfg.websocket.host)
      ∧ (∀ h, extractHostFromUrl parseHost url = some h → h ≠ "" →
          (getEndpointForUrl parseHost rx cfg url).host = h)
      ∧ (cfg.autoRouting = false →
          (getEndpointForUrl parseHost rx cfg url).port = cfg.websocket.port
            ∧ (getEndpointForUrl parseHost rx cfg url).route = none)
      ∧ (cfg.autoRouting = true →
          (∀ r, findMatchingRoute rx url cfg.routes = some r →
            (getEndpointForUrl parseHost rx cfg url).port = r.mcpPort
              ∧ (getEndpointForUrl parseHost rx cfg url).route = some r)
            ∧ (findMatchingRoute rx url cfg.routes = none →
              (getEndpointForUrl parseHost rx cfg url).port =
                  cfg.websocket.port
                ∧ (getEndpointForUrl parseHost rx cfg url).route = none)) := by
  have hhost : (getEndpointForUrl parseHost rx cfg url).host =
      jsOrDefault (extractHostFromUrl parseHost url) cfg.websocket.host := by
    rw [getEndpointForUrl]
    by_cases ha : cfg.autoRouting = false
    · simp [ha]
    · simp only [ha, if_false]
      cases findMatchingRoute rx url cfg.routes <;> rfl
  refine ⟨hhost, ?_, ?_, ?_, ?_⟩
  · intro hp
    rw [hhost, hp]
    rfl
  · intro h hp hne
    rw [hhost, hp]
    simp [jsOrDefault, hne]
  · intro ha
    rw [getEndpointForUrl]
    simp [ha]
  · intro ha
    constructor
    · intro r hr
      rw [getEndpointForUrl]
      simp [ha, hr]
    · intro hr
      rw [getEndpointForUrl]
      simp [ha, hr]

/-- C2 witness: the spec's own example — `https://10.0.0.5:22002/x` with
the port-22002 rule resolves to host `10.0.0.5`, port `7022`, with the
rule recorded. -/
theorem c2_resolve_characterization_witness :
    (getEndpointForUrl parseHost105 rxNone cfg22002
          "https://10.0.0.5:22002/x").host = "10.0.0.5"
      ∧ (getEndpointForUrl parseHost105 rxNone cfg22002
          "https://10.0.0.5:22002/x").port = 7022
      ∧ (getEndpointForUrl parseHost105 rxNone cfg22002
          "https://10.0.0.5:22002/x").route = some r22002 := by
  have h := c2_resolve_characterization parseHost105 rxNone cfg22002
      "https://10.0.0.5:22002/x"
  have hh := h.2.2.1 "10.0.0.5" rfl (by decide)
  have hm : findMatchingRoute rxNone "https://10.0.0.5:22002/x"
      cfg22002.routes = some r22002 := by decide
  have hp := (h.2.2.2.2 rfl).1 r22002 hm
  exact ⟨hh, hp.1, hp.2⟩

/-- C9 counterexample: a message whose tab identifier is present but equal
to `0` creates no route-tracking entry — the listener guards with the
truthiness test `if (tabId)`, which rejects `0`. -/
theorem c9_route_tracking_counterexample :
    (some (0 : ℤ)).isSome = true
      ∧ handleDomElementPointed parseEmptyHost rxNone cfg0
          "http://localhost:3000/" (some 0) emptyStore 0 = none := by
  exact ⟨rfl, rfl⟩

/-- C9 (amended): for every `DOM_ELEMENT_POINTED` message whose tab
identifier is present and nonzero, the store entry for that tab is created
or overwritten with the resolved matched rule (or `none` when no rule
matched); the entry for a tab is deleted when that tab closes. -/
theorem c9_route_tracking (parseHost : String → Option String)
    (rx : String → Option (String → Bool)) (cfg : ExtensionConfig)
    (url : String) (t : ℤ) (store : RouteStore) (ht : t ≠ 0) :
    handleDomElementPointed parseHost rx cfg url (some t) store t =
        some (getEndpointForUrl parseHost rx cfg url).route
      ∧ ∀ t2 : ℤ, ∀ store2 : RouteStore, handleTabRemoved t2 store2 t2 = none := by
  constructor
  · simp [handleDomElementPointed, storeSet, ht]
  · intro t2 store2
    simp [handleTabRemoved, storeDelete]

/-! ## Run lemmas for the connection lifecycle manager -/

/-- `statusesOf` distributes over concatenation. -/
theorem statusesOf_append (l1 l2 : List Event) :
    statusesOf (l1 ++ l2) = statusesOf l1 ++ statusesOf l2 := by
  induction l1 with
  | nil => rfl
  | cons e rest ih =>
    cases e <;> simp [statusesOf, ih]

/-- `socketEvents` distributes over concatenation. -/
theorem socketEvents_append (l1 l2 : List Event) :
    socketEvents (l1 ++ l2) = socketEvents l1 ++ socketEvents l2 := by
  induction l1 with
  | nil => rfl
  | cons e rest ih =>
    cases e <;> simp [socketEvents, ih]

/-- `handleConnectionChange` on an invalid target: `ERROR`, no state
change. -/
theorem handleConnectionChange_invalid (host : String) (port : ℚ)
    (st : SenderState)
    (h : (host = "" ∨ jsTrim host = "") ∨ (port = 0 ∨ port ≤ 0 ∨ 65535 < port)) :
    handleConnectionChange host port st = (false, st, [.status .ERROR]) := by
  rcases h with h1 | h2
  · rw [handleConnectionChange, if_pos h1]
  · by_cases h1 : host = "" ∨ jsTrim host = ""
    · rw [handleConnectionChange, if_pos h1]
    · rw [handleConnectionChange, if_neg h1, if_pos h2]

/-- `handleConnectionChange` on first use: adopt the target silently. -/
theorem handleConnectionChange_init (host : String) (port : ℚ)
    (st : SenderState)
    (hhost : ¬(host = "" ∨ jsTrim host = ""))
    (hport : ¬(port = 0 ∨ port ≤ 0 ∨ 65535 < port))
    (hinit : st.currentHost = none ∧ st.currentPort = none) :
    handleConnectionChange host port st =
      (true, { st with currentHost := some host, currentPort := some port },
        []) := by
  rw [handleConnectionChange, if_neg hhost, if_neg hport, if_pos hinit]

/-- `handleConnectionChange` on a target change: disconnect the old
connection, then adopt the new target. -/
theorem handleConnectionChange_change (host : String) (port : ℚ)
    (st : SenderState)
    (hhost : ¬(host = "" ∨ jsTrim host = ""))
    (hport : ¬(port = 0 ∨ port ≤ 0 ∨ 65535 < port))
    (hninit : ¬(st.currentHost = none ∧ st.currentPort = none))
    (hchange : st.currentHost ≠ some host ∨ st.currentPort ≠ some port) :
    handleConnectionChange host port st =
      (true, { (disconnect st).1 with
                 currentHost := some host, currentPort := some port },
        (disconnect st).2) := by
  rw [handleConnectionChange, if_neg hhost, if_neg hport, if_neg hninit,
    if_pos hchange]

/-- `handleConnectionChange` on the unchanged target: no-op. -/
theorem handleConnectionChange_same (host : String) (port : ℚ)
    (st : SenderState)
    (hhost : ¬(host = "" ∨ jsTrim host = ""))
    (hport : ¬(port = 0 ∨ port ≤ 0 ∨ 65535 < port))
    (hsame : st.currentHost = some host ∧ st.currentPort = some port) :
    handleConnectionChange host port st = (true, st, []) := by
  have hninit : ¬(st.currentHost = none ∧ st.currentPort = none) := by
    intro h
    rw [hsame.1] at h
    exact Option.noConfusion h.1
  have hnchange : ¬(st.currentHost ≠ some host ∨ st.currentPort ≠ some port) := by
    intro h
    rcases h with h | h
    · exact h hsame.1
    · exact h hsame.2
  rw [handleConnectionChange, if_neg hhost, if_neg hport, if_neg hninit,
    if_neg hnchange]

/-- `ensureConnection` when `handleConnectionChange` fails: failure
propagates untouched. -/
theorem ensureConnection_handleFail (host : String) (port : ℚ)
    (st st1 : SenderState) (ev1 : List Event) (env : SendEnv)
    (hh : handleConnectionChange host port st = (false, st1, ev1)) :
    ensureConnection host port st env = (false, st1, ev1) := by
  rw [ensureConnection, hh]
  simp

/-- `ensureConnection` when the manager is not connected after target
handling: emit `CONNECTING`, create a fresh socket; it opens in time or
the attempt is torn down with a single `ERROR`. -/
theorem ensureConnection_attempt (host : String) (port : ℚ)
    (st st1 : SenderState) (ev1 : List Event) (env : SendEnv)
    (hh : handleConnectionChange host port st = (true, st1, ev1))
    (hconn : isConnected st1 = false)
    (hidle : st1.idleTimeout = false) :
    ensureConnection host port st env =
      if env.opensInTime then
        (true,
          { st1 with
              ws := some (Socket.mk st1.nextId true)
              nextId := st1.nextId + 1 },
          ev1 ++ [.status .CONNECTING, .created st1.nextId,
            .status .CONNECTED])
      else
        (false, { st1 with ws := none, nextId := st1.nextId + 1 },
          ev1 ++ [.status .CONNECTING, .created st1.nextId, .status .ERROR,
            .closed st1.nextId]) := by
  rw [ensureConnection, hh]
  simp only [hconn]
  cases henv : env.opensInTime
  · simp [disconnect, clearIdleTimer, hidle, List.append_assoc]
  · simp

/-- `ensureConnection` when already connected: only `CONNECTED` is
emitted. -/
theorem ensureConnection_reuse (host : String) (port : ℚ)
    (st st1 : SenderState) (ev1 : List Event) (env : SendEnv)
    (hh : handleConnectionChange host port st = (true, st1, ev1))
    (hconn : isConnected st1 = true) :
    ensureConnection host port st env =
      (true, st1, ev1 ++ [.status .CONNECTED]) := by
  rw [ensureConnection, hh]
  simp [hconn]

/-- `sendElement` when `ensureConnection` fails: the send is dropped. -/
theorem sendElement_fail (host : String) (port : ℚ) (st st2 : SenderState)
    (ev2 : List Event) (env : SendEnv)
    (he : ensureConnection host port (clearIdleTimer st).1 env =
      (false, st2, ev2)) :
    sendElement host port st env = (st2, (clearIdleTimer st).2 ++ ev2) := by
  rw [sendElement, he]
  simp

/-- `sendElement` when `ensureConnection` succeeds: arm the idle timer,
emit `SENDING`, then transmit and emit `SENT` (or catch the transmit
exception and emit `ERROR`). -/
theorem sendElement_sendPhase (host : String) (port : ℚ)
    (st st2 : SenderState) (ev2 : List Event) (env : SendEnv) (sock : Socket)
    (he : ensureConnection host port (clearIdleTimer st).1 env =
      (true, st2, ev2))
    (hws : st2.ws = some sock) :
    sendElement host port st env =
      if env.sendThrows then
        ({ st2 with idleTimeout := true },
          (clearIdleTimer st).2 ++ ev2 ++
            [.idleStarted, .status .SENDING, .status .ERROR])
      else
        ({ st2 with idleTimeout := true },
          (clearIdleTimer st).2 ++ ev2 ++
            [.idleStarted, .status .SENDING, .transmitted sock.id,
              .status .SENT]) := by
  rw [sendElement, he]
  cases henv : env.sendThrows
  · simp [startIdleTimer, hws, List.append_assoc]
  · simp [startIdleTimer, hws, List.append_assoc]

/-- With a valid target, `handleConnectionChange` always succeeds. -/
theorem handleConnectionChange_ok_of_valid (host : String) (port : ℚ)
    (st : SenderState)
    (hhost : ¬(host = "" ∨ jsTrim host = ""))
    (hport : ¬(port = 0 ∨ port ≤ 0 ∨ 65535 < port)) :
    (handleConnectionChange host port st).1 = true := by
  by_cases h3 : st.currentHost = none ∧ st.currentPort = none
  · rw [handleConnectionChange_init host port st hhost hport h3]
  · by_cases h4 : st.currentHost ≠ some host ∨ st.currentPort ≠ some port
    · rw [handleConnectionChange_change host port st hhost hport h3 h4]
    · have hsame : st.currentHost = some host ∧ st.currentPort = some port := by
        constructor
        · by_contra hc
          exact h4 (Or.inl hc)
        · by_contra hc
          exact h4 (Or.inr hc)
      rw [handleConnectionChange_same host port st hhost hport hsame]

/-- Facts holding in every successful branch of `handleConnectionChange`
on a state with no pending idle timer: the new target is adopted, the
timer stays clear, the id counter is untouched, and the produced events
contain no status callback and no transmission. -/
theorem handleConnectionChange_ok_facts (host : String) (port : ℚ)
    (st : SenderState) (hidle : st.idleTimeout = false)
    (hok : (handleConnectionChange host port st).1 = true) :
    (handleConnectionChange host port st).2.1.currentHost = some host
      ∧ (handleConnectionChange host port st).2.1.currentPort = some port
      ∧ (handleConnectionChange host port st).2.1.idleTimeout = false
      ∧ (handleConnectionChange host port st).2.1.nextId = st.nextId
      ∧ statusesOf (handleConnectionChange host port st).2.2 = []
      ∧ (∀ sid, Event.transmitted sid ∉ (handleConnectionChange host port st).2.2)
      ∧ ¬(host = "" ∨ jsTrim host = "")
      ∧ ¬(port = 0 ∨ port ≤ 0 ∨ 65535 < port) := by
  by_cases h1 : host = "" ∨ jsTrim host = ""
  · rw [handleConnectionChange_invalid host port st (Or.inl h1)] at hok
    exact absurd hok (by simp)
  by_cases h2 : port = 0 ∨ port ≤ 0 ∨ 65535 < port
  · rw [handleConnectionChange_invalid host port st (Or.inr h2)] at hok
    exact absurd hok (by simp)
  by_cases h3 : st.currentHost = none ∧ st.currentPort = none
  · rw [handleConnectionChange_init host port st h1 h2 h3]
    simp [statusesOf, hidle, h1, h2]
  by_cases h4 : st.currentHost ≠ some host ∨ st.currentPort ≠ some port
  · rw [handleConnectionChange_change host port st h1 h2 h3 h4]
    cases hws : st.ws <;>
      simp [disconnect, clearIdleTimer, hidle, hws, statusesOf, h1, h2]
  · have hsame : st.currentHost = some host ∧ st.currentPort = some port := by
      constructor
      · by_contra hc
        exact h4 (Or.inl hc)
      · by_contra hc
        exact h4 (Or.inr hc)
    rw [handleConnectionChange_same host port st h1 h2 hsame]
    simp [statusesOf, hidle, hsame.1, hsame.2, h1, h2]

/-- Clearing the idle timer never touches the other fields, and the
cleared state carries no pending timer. -/
theorem clearIdleTimer_fields (st : SenderState) :
    (clearIdleTimer st).1.ws = st.ws
      ∧ (clearIdleTimer st).1.currentHost = st.currentHost
      ∧ (clearIdleTimer st).1.currentPort = st.currentPort
      ∧ (clearIdleTimer st).1.idleTimeout = false
      ∧ (clearIdleTimer st).1.nextId = st.nextId
      ∧ statusesOf (clearIdleTimer st).2 = []
      ∧ (∀ sid, Event.transmitted sid ∉ (clearIdleTimer st).2)
      ∧ (st.idleTimeout = true → (clearIdleTimer st).2 = [Event.idleCleared])
      ∧ (st.idleTimeout = false → (clearIdleTimer st).2 = []) := by
  cases hi : st.idleTimeout <;> simp [clearIdleTimer, hi, statusesOf]

/-- Firing the armed idle timer disconnects exactly once: the socket is
closed and the timer cleared, and a second firing is impossible (a no-op,
since no timer is pending any more). -/
theorem idleFire_of_armed (st : SenderState) (sock : Socket)
    (hidle : st.idleTimeout = true) (hws : st.ws = some sock) :
    idleFire st =
        ({ st with ws := none, idleTimeout := false },
          [Event.idleCleared, Event.closed sock.id])
      ∧ idleFire { st with ws := none, idleTimeout := false } =
          ({ st with ws := none, idleTimeout := false }, []) := by
  constructor
  · simp [idleFire, hidle, disconnect, clearIdleTimer, hws]
  · simp [idleFire]

/-- Every send with a valid target whose socket opens in time and whose
transmit does not throw succeeds: it leaves an Open connection to the
requested target with the idle timer armed, after having cancelled any
previously pending idle timer first. -/
theorem sendElement_success (host : String) (port : ℚ) (st : SenderState)
    (env : SendEnv)
    (hhost : ¬(host = "" ∨ jsTrim host = ""))
    (hport : ¬(port = 0 ∨ port ≤ 0 ∨ 65535 < port))
    (hopen : env.opensInTime = true)
    (hthrow : env.sendThrows = false) :
    ∃ sock : Socket, sock.isOpen = true
      ∧ (sendElement host port st env).1.ws = some sock
      ∧ (sendElement host port st env).1.idleTimeout = true
      ∧ (sendElement host port st env).1.currentHost = some host
      ∧ (sendElement host port st env).1.currentPort = some port
      ∧ Event.idleStarted ∈ (sendElement host port st env).2
      ∧ (st.idleTimeout = true →
          (sendElement host port st env).2.head? = some Event.idleCleared)
      ∧ Event.transmitted sock.id ∈ (sendElement host port st env).2
      ∧ statusesOf (sendElement host port st env).2 =
          statusesOf (handleConnectionChange host port (clearIdleTimer st).1).2.2
            ++ (if isConnected (handleConnectionChange host port (clearIdleTimer st).1).2.1 then
                  ([] : List ConnectionStatus)
                else [ConnectionStatus.CONNECTING])
            ++ [ConnectionStatus.CONNECTED, ConnectionStatus.SENDING,
                ConnectionStatus.SENT] := by
  have hc := clearIdleTimer_fields st
  have hok := handleConnectionChange_ok_of_valid host port
    (clearIdleTimer st).1 hhost hport
  have hfacts := handleConnectionChange_ok_facts host port
    (clearIdleTimer st).1 hc.2.2.2.1 hok
  have hh : handleConnectionChange host port (clearIdleTimer st).1 =
      (true, (handleConnectionChange host port (clearIdleTimer st).1).2.1,
        (handleConnectionChange host port (clearIdleTimer st).1).2.2) := by
    rw [← hok]
  cases hconn : isConnected (handleConnectionChange host port
      (clearIdleTimer st).1).2.1
  · -- fresh connection attempt, opens in time
    have hE := ensureConnection_attempt host port (clearIdleTimer st).1 _ _
      env hh hconn hfacts.2.2.1
    rw [hopen, if_pos rfl] at hE
    have hS := sendElement_sendPhase host port st _ _ env
      (Socket.mk (handleConnectionChange host port
        (clearIdleTimer st).1).2.1.nextId true) hE (by simp)
    rw [hthrow, if_neg (by simp)] at hS
    refine ⟨Socket.mk (handleConnectionChange host port
      (clearIdleTimer st).1).2.1.nextId true, rfl, ?_, ?_, ?_, ?_, ?_, ?_, ?_, ?_⟩
    · rw [hS]
    · rw [hS]
    · rw [hS]
      simp [hfacts.1]
    · rw [hS]
      simp [hfacts.2.1]
    · rw [hS]
      simp
    · intro hi
      rw [hS]
      simp [hc.2.2.2.2.2.2.2.1 hi]
    · rw [hS]
      simp
    · rw [hS]
      simp [statusesOf_append, hc.2.2.2.2.2.1, statusesOf, hfacts.2.2.2.2.1]
  · -- connection reused
    have hE := ensureConnection_reuse host port (clearIdleTimer st).1 _ _
      env hh hconn
    obtain ⟨sock, hws, hsock⟩ :
        ∃ sock, (handleConnectionChange host port
            (clearIdleTimer st).1).2.1.ws = some sock ∧ sock.isOpen = true := by
      revert hconn
      rw [isConnected]
      cases hw : (handleConnectionChange host port
          (clearIdleTimer st).1).2.1.ws
      · intro hcontra
        exact absurd hcontra (by simp)
      · intro hcontra
        exact ⟨_, rfl, hcontra⟩
    have hS := sendElement_sendPhase host port st _ _ env sock hE hws
    rw [hthrow, if_neg (by simp)] at hS
    refine ⟨sock, hsock, ?_, ?_, ?_, ?_, ?_, ?_, ?_, ?_⟩
    · rw [hS]
      simp [hws]
    · rw [hS]
    · rw [hS]
      simp [hfacts.1]
    · rw [hS]
      simp [hfacts.2.1]
    · rw [hS]
      simp
    · intro hi
      rw [hS]
      simp [hc.2.2.2.2.2.2.2.1 hi]
    · rw [hS]
      simp
    · rw [hS]
      simp [statusesOf_append, hc.2.2.2.2.2.1, statusesOf, hfacts.2.2.2.2.1]

/-- Clearing an idle timer that is not pending is a no-op. -/
theorem clearIdleTimer_noop (st : SenderState)
    (h : st.idleTimeout = false) : clearIdleTimer st = (st, []) := by
  simp [clearIdleTimer, h]

/-- C7 counterexample: the port `14015/2 = 7007.5` is not an integer in
`[1, 65535]`, yet the validation guard `!port || port <= 0 ||
port > 65535` accepts it: the send proceeds with no `ERROR` and the
connection target is mutated. -/
theorem c7_validation_counterexample :
    (¬ ∃ n : ℤ, (mkRat 14015 2 = (n : ℚ)) ∧ 1 ≤ n ∧ n ≤ 65535)
      ∧ statusesOf (sendElement "localhost" (mkRat 14015 2) initialState
            envOK).2 =
          [ConnectionStatus.CONNECTING, ConnectionStatus.CONNECTED,
            ConnectionStatus.SENDING, ConnectionStatus.SENT]
      ∧ (sendElement "localhost" (mkRat 14015 2) initialState
            envOK).1.currentPort = some (mkRat 14015 2)
      ∧ initialState.currentPort = none := by
  refine ⟨?_, by decide, by decide, rfl⟩
  rintro ⟨n, hn, -, -⟩
  have hd : (mkRat 14015 2).den = 2 := by decide
  rw [hn] at hd
  simp [Rat.den_intCast] at hd

/-- C7 (amended): a send whose host is empty or whose port is nonpositive
or greater than 65535 emits exactly the status `ERROR` and leaves the
socket, the current target and hence the connection state untouched. -/
theorem c7_validation_rejected (host : String) (port : ℚ)
    (st : SenderState) (env : SendEnv)
    (h : host = "" ∨ port ≤ 0 ∨ 65535 < port) :
    statusesOf (sendElement host port st env).2 = [ConnectionStatus.ERROR]
      ∧ (sendElement host port st env).1.ws = st.ws
      ∧ (sendElement host port st env).1.currentHost = st.currentHost
      ∧ (sendElement host port st env).1.currentPort = st.currentPort := by
  have hc := clearIdleTimer_fields st
  have hg : (host = "" ∨ jsTrim host = "")
      ∨ (port = 0 ∨ port ≤ 0 ∨ 65535 < port) := by
    rcases h with h | h | h
    · exact Or.inl (Or.inl h)
    · exact Or.inr (Or.inr (Or.inl h))
    · exact Or.inr (Or.inr (Or.inr h))
  have hh := handleConnectionChange_invalid host port (clearIdleTimer st).1 hg
  have hE := ensureConnection_handleFail host port (clearIdleTimer st).1 _ _
    env hh
  have hS := sendElement_fail host port st _ _ env hE
  rw [hS]
  refine ⟨?_, hc.1, hc.2.1, hc.2.2.1⟩
  rw [statusesOf_append, hc.2.2.2.2.2.1]
  rfl

/-- C7 witness: a send with an empty host is rejected with `ERROR` and
leaves a fresh manager untouched. -/
theorem c7_validation_rejected_witness :
    (("" : String) = "" ∨ (7007 : ℚ) ≤ 0 ∨ 65535 < (7007 : ℚ))
      ∧ statusesOf (sendElement "" 7007 initialState envOK).2 =
          [ConnectionStatus.ERROR]
      ∧ (sendElement "" 7007 initialState envOK).1.ws = initialState.ws
      ∧ (sendElement "" 7007 initialState envOK).1.currentHost =
          initialState.currentHost
      ∧ (sendElement "" 7007 initialState envOK).1.currentPort =
          initialState.currentPort := by
  have h := c7_validation_rejected "" 7007 initialState envOK (Or.inl rfl)
  exact ⟨Or.inl rfl, h.1, h.2.1, h.2.2.1, h.2.2.2⟩

/-- C4: a send whose connection attempt does not reach Open within the
`CONNECTION_TIMEOUT` of 10000 ms emits exactly one `ERROR` (after the
initial `CONNECTING`), tears the connection down leaving the manager
Disconnected with no pending timer, transmits nothing (the model keeps no
queue, so the send is dropped), and a subsequent send to the same target
makes a fresh connection attempt which can succeed independently. -/
theorem c4_connection_timeout (host : String) (port : ℚ)
    (st : SenderState) (env : SendEnv)
    (hattempt : attemptsConnection host port st = true)
    (henv : env.opensInTime = false) :
    statusesOf (sendElement host port st env).2 =
        [ConnectionStatus.CONNECTING, ConnectionStatus.ERROR]
      ∧ (sendElement host port st env).1.ws = none
      ∧ (sendElement host port st env).1.idleTimeout = false
      ∧ (∀ sid, Event.transmitted sid ∉ (sendElement host port st env).2)
      ∧ CONNECTION_TIMEOUT = 10000
      ∧ attemptsConnection host port (sendElement host port st env).1 = true
      ∧ statusesOf
          (sendElement host port (sendElement host port st env).1 envOK).2 =
        [ConnectionStatus.CONNECTING, ConnectionStatus.CONNECTED,
          ConnectionStatus.SENDING, ConnectionStatus.SENT] := by
  have hc := clearIdleTimer_fields st
  rw [attemptsConnection, Bool.and_eq_true] at hattempt
  obtain ⟨hok, hnc⟩ := hattempt
  have hconn : isConnected
      (handleConnectionChange host port (clearIdleTimer st).1).2.1 = false := by
    revert hnc
    cases isConnected (handleConnectionChange host port (clearIdleTimer st).1).2.1
    · intro _
      rfl
    · intro hcontra
      exact absurd hcontra (by simp)
  have hfacts := handleConnectionChange_ok_facts host port
    (clearIdleTimer st).1 hc.2.2.2.1 hok
  have hh : handleConnectionChange host port (clearIdleTimer st).1 =
      (true, (handleConnectionChange host port (clearIdleTimer st).1).2.1,
        (handleConnectionChange host port (clearIdleTimer st).1).2.2) := by
    rw [← hok]
  have hE := ensureConnection_attempt host port (clearIdleTimer st).1 _ _
    env hh hconn hfacts.2.2.1
  rw [henv] at hE
  rw [if_neg (by simp)] at hE
  have hS := sendElement_fail host port st _ _ env hE
  have hstate : (sendElement host port st env).1.ws = none
      ∧ (sendElement host port st env).1.idleTimeout = false
      ∧ (sendElement host port st env).1.currentHost = some host
      ∧ (sendElement host port st env).1.currentPort = some port := by
    rw [hS]
    exact ⟨rfl, hfacts.2.2.1, hfacts.1, hfacts.2.1⟩
  have hnoop : clearIdleTimer (sendElement host port st env).1 =
      ((sendElement host port st env).1, []) :=
    clearIdleTimer_noop _ hstate.2.1
  have hsame2 := handleConnectionChange_same host port
    (sendElement host port st env).1 hfacts.2.2.2.2.2.2.1
    hfacts.2.2.2.2.2.2.2 ⟨hstate.2.2.1, hstate.2.2.2⟩
  have hconn2 : isConnected (sendElement host port st env).1 = false := by
    rw [isConnected, hstate.1]
  refine ⟨?_, hstate.1, hstate.2.1, ?_, rfl, ?_, ?_⟩
  · rw [hS, statusesOf_append, hc.2.2.2.2.2.1, statusesOf_append,
      hfacts.2.2.2.2.1]
    rfl
  · intro sid
    rw [hS]
    intro hmem
    rw [List.mem_append] at hmem
    rcases hmem with hmem | hmem
    · exact hc.2.2.2.2.2.2.1 sid hmem
    rw [List.mem_append] at hmem
    rcases hmem with hmem | hmem
    · exact hfacts.2.2.2.2.2.1 sid hmem
    · simp at hmem
  · simp [attemptsConnection, hnoop, hsame2, hconn2]
  · have hh2 : handleConnectionChange host port
        (clearIdleTimer (sendElement host port st env).1).1 =
        (true, (sendElement host port st env).1, []) := by
      rw [hnoop]
      exact hsame2
    have hE2 := ensureConnection_attempt host port _ _ _ envOK hh2
      hconn2 hstate.2.1
    rw [if_pos (show envOK.opensInTime = true from rfl)] at hE2
    have hS2 := sendElement_sendPhase host port
      (sendElement host port st env).1 _ _ envOK
      (Socket.mk (sendElement host port st env).1.nextId true) hE2 (by simp)
    rw [if_neg (show ¬envOK.sendThrows = true by decide)] at hS2
    rw [hS2, hnoop]
    simp [statusesOf_append, statusesOf]

/-- C4 witness: from a fresh manager, a timed-out attempt to
`localhost:7007` yields `CONNECTING, ERROR`, leaves the manager
Disconnected, transmits nothing, and the next send succeeds. -/
theorem c4_connection_timeout_witness :
    attemptsConnection "localhost" 7007 initialState = true
      ∧ envTimeout.opensInTime = false
      ∧ statusesOf (sendElement "localhost" 7007 initialState envTimeout).2 =
          [ConnectionStatus.CONNECTING, ConnectionStatus.ERROR]
      ∧ (sendElement "localhost" 7007 initialState envTimeout).1.ws = none
      ∧ statusesOf (sendElement "localhost" 7007
          (sendElement "localhost" 7007 initialState envTimeout).1 envOK).2 =
        [ConnectionStatus.CONNECTING, ConnectionStatus.CONNECTED,
          ConnectionStatus.SENDING, ConnectionStatus.SENT] := by
  have h := c4_connection_timeout "localhost" 7007 initialState envTimeout
    (by decide) rfl
  exact ⟨by decide, rfl, h.1, h.2.1, h.2.2.2.2.2.2⟩

/-- C3: when a send targets a different (host, port) than the live
connection, the old socket is closed (and any pending idle timer
cancelled) as the very first events, before the new socket is even
created; every frame transmitted by that send travels over the newly
created socket, never over the old one. -/
theorem c3_target_switch (st : SenderState) (sockA : Socket)
    (hostB : String) (portB : ℚ) (env : SendEnv)
    (hws : st.ws = some sockA)
    (hid : sockA.id < st.nextId)
    (hprev : st.currentHost.isSome = true)
    (hchange : st.currentHost ≠ some hostB ∨ st.currentPort ≠ some portB)
    (hhost : ¬(hostB = "" ∨ jsTrim hostB = ""))
    (hport : ¬(portB = 0 ∨ portB ≤ 0 ∨ 65535 < portB)) :
    (socketEvents (sendElement hostB portB st env).2).take 2 =
        [Event.closed sockA.id, Event.created st.nextId]
      ∧ (∀ sid, Event.transmitted sid ∈ (sendElement hostB portB st env).2 →
          sid = st.nextId ∧ sid ≠ sockA.id)
      ∧ (st.idleTimeout = true →
          (sendElement hostB portB st env).2.take 2 =
            [Event.idleCleared, Event.closed sockA.id]) := by
  have hc := clearIdleTimer_fields st
  have hcws : (clearIdleTimer st).1.ws = some sockA := by
    rw [hc.1, hws]
  have hninit : ¬((clearIdleTimer st).1.currentHost = none
      ∧ (clearIdleTimer st).1.currentPort = none) := by
    rw [hc.2.1]
    intro h
    rw [h.1] at hprev
    exact Bool.noConfusion hprev
  have hchange1 : (clearIdleTimer st).1.currentHost ≠ some hostB
      ∨ (clearIdleTimer st).1.currentPort ≠ some portB := by
    rw [hc.2.1, hc.2.2.1]
    exact hchange
  have hdisc : disconnect (clearIdleTimer st).1 =
      ({ (clearIdleTimer st).1 with ws := none },
        [Event.closed sockA.id]) := by
    rw [disconnect, clearIdleTimer_noop _ hc.2.2.2.1]
    simp [hcws]
  have hh := handleConnectionChange_change hostB portB (clearIdleTimer st).1
    hhost hport hninit hchange1
  rw [hdisc] at hh
  have hE := ensureConnection_attempt hostB portB (clearIdleTimer st).1 _ _
    env hh (by rw [isConnected]) hc.2.2.2.1
  have hsoc : socketEvents (clearIdleTimer st).2 = [] := by
    cases hit : st.idleTimeout
    · rw [hc.2.2.2.2.2.2.2.2 hit]
      rfl
    · rw [hc.2.2.2.2.2.2.2.1 hit]
      rfl
  cases hop : env.opensInTime
  · rw [hop, if_neg (by simp)] at hE
    have hS := sendElement_fail hostB portB st _ _ env hE
    refine ⟨?_, ?_, ?_⟩
    · rw [hS, socketEvents_append, hsoc]
      simp [socketEvents, hc.2.2.2.2.1]
    · intro sid hmem
      rw [hS] at hmem
      cases hit : st.idleTimeout
      · rw [hc.2.2.2.2.2.2.2.2 hit] at hmem
        simp [socketEvents] at hmem
      · rw [hc.2.2.2.2.2.2.2.1 hit] at hmem
        simp [socketEvents] at hmem
    · intro hit
      rw [hS, hc.2.2.2.2.2.2.2.1 hit]
      rfl
  · rw [hop, if_pos rfl] at hE
    have hS := sendElement_sendPhase hostB portB st _ _ env
      (Socket.mk (clearIdleTimer st).1.nextId true) hE (by simp)
    cases hth : env.sendThrows
    · rw [hth, if_neg (by simp)] at hS
      refine ⟨?_, ?_, ?_⟩
      · rw [hS, socketEvents_append, socketEvents_append, hsoc]
        simp [socketEvents, hc.2.2.2.2.1]
      · intro sid hmem
        rw [hS] at hmem
        cases hit : st.idleTimeout
        · rw [hc.2.2.2.2.2.2.2.2 hit] at hmem
          simp [hc.2.2.2.2.1] at hmem
          omega
        · rw [hc.2.2.2.2.2.2.2.1 hit] at hmem
          simp [hc.2.2.2.2.1] at hmem
          omega
      · intro hit
        rw [hS, hc.2.2.2.2.2.2.2.1 hit]
        rfl
    · rw [hth, if_pos rfl] at hS
      refine ⟨?_, ?_, ?_⟩
      · rw [hS, socketEvents_append, socketEvents_append, hsoc]
        simp [socketEvents, hc.2.2.2.2.1]
      · intro sid hmem
        rw [hS] at hmem
        cases hit : st.idleTimeout
        · rw [hc.2.2.2.2.2.2.2.2 hit] at hmem
          simp at hmem
        · rw [hc.2.2.2.2.2.2.2.1 hit] at hmem
          simp at hmem
      · intro hit
        rw [hS, hc.2.2.2.2.2.2.2.1 hit]
        rfl

/-- C3 witness: after a successful send to `localhost:7007` over socket 0,
a send to `10.0.0.5:7022` first closes socket 0, then creates socket 1,
and transmits only over socket 1. -/
theorem c3_target_switch_witness :
    (socketEvents (sendElement "10.0.0.5" 7022
          (sendElement "localhost" 7007 initialState envOK).1 envOK).2).take 2 =
        [Event.closed (Socket.mk 0 true).id,
          Event.created (sendElement "localhost" 7007 initialState
            envOK).1.nextId]
      ∧ (∀ sid, Event.transmitted sid ∈ (sendElement "10.0.0.5" 7022
            (sendElement "localhost" 7007 initialState envOK).1 envOK).2 →
          sid = (sendElement "localhost" 7007 initialState envOK).1.nextId
            ∧ sid ≠ (Socket.mk 0 true).id)
      ∧ ((sendElement "localhost" 7007 initialState envOK).1.idleTimeout =
            true →
          (sendElement "10.0.0.5" 7022
              (sendElement "localhost" 7007 initialState
                envOK).1 envOK).2.take 2 =
            [Event.idleCleared, Event.closed (Socket.mk 0 true).id]) :=
  c3_target_switch (sendElement "localhost" 7007 initialState envOK).1
    (Socket.mk 0 true) "10.0.0.5" 7022 envOK (by decide) (by decide)
    (by decide) (by decide) (by decide) (by decide)

/-- C8: after a successful send the idle timer (of `IDLE_DURATION` =
10000 ms) is armed on an Open connection; if it fires, the connection goes
from Open to Disconnected exactly once — socket closed, timer cleared —
and a repeat firing is impossible (the teardown is a no-op once
disconnected); a new send first cancels any pending idle timer and arms a
fresh one on success. -/
theorem c8_idle_teardown (host : String) (port : ℚ) (st : SenderState)
    (env : SendEnv)
    (hhost : ¬(host = "" ∨ jsTrim host = ""))
    (hport : ¬(port = 0 ∨ port ≤ 0 ∨ 65535 < port))
    (hopen : env.opensInTime = true)
    (hthrow : env.sendThrows = false) :
    IDLE_DURATION = 10000
      ∧ (sendElement host port st env).1.idleTimeout = true
      ∧ isConnected (sendElement host port st env).1 = true
      ∧ Event.idleStarted ∈ (sendElement host port st env).2
      ∧ (st.idleTimeout = true →
          (sendElement host port st env).2.head? = some Event.idleCleared)
      ∧ (∃ sid, idleFire (sendElement host port st env).1 =
          ({ (sendElement host port st env).1 with
               ws := none
               idleTimeout := false },
            [Event.idleCleared, Event.closed sid]))
      ∧ idleFire (idleFire (sendElement host port st env).1).1 =
          ((idleFire (sendElement host port st env).1).1, []) := by
  obtain ⟨sock, hsock, hws, hidle, hch, hcp, hstart, hhead, htrans, hstat⟩ :=
    sendElement_success host port st env hhost hport hopen hthrow
  have hf := idleFire_of_armed (sendElement host port st env).1 sock hidle hws
  refine ⟨rfl, hidle, ?_, hstart, hhead, ⟨sock.id, hf.1⟩, ?_⟩
  · simp [isConnected, hws, hsock]
  · rw [hf.1]
    exact hf.2

/-- C8 witness: a successful send from a fresh manager arms the timer;
its firing closes the socket exactly once, and firing again is a no-op. -/
theorem c8_idle_teardown_witness :
    IDLE_DURATION = 10000
      ∧ (sendElement "localhost" 7007 initialState envOK).1.idleTimeout =
          true
      ∧ isConnected (sendElement "localhost" 7007 initialState envOK).1 =
          true
      ∧ Event.idleStarted ∈ (sendElement "localhost" 7007 initialState
          envOK).2
      ∧ (initialState.idleTimeout = true →
          (sendElement "localhost" 7007 initialState envOK).2.head? =
            some Event.idleCleared)
      ∧ (∃ sid, idleFire (sendElement "localhost" 7007 initialState
            envOK).1 =
          ({ (sendElement "localhost" 7007 initialState envOK).1 with
               ws := none
               idleTimeout := false },
            [Event.idleCleared, Event.closed sid]))
      ∧ idleFire (idleFire (sendElement "localhost" 7007 initialState
            envOK).1).1 =
          ((idleFire (sendElement "localhost" 7007 initialState
            envOK).1).1, []) :=
  c8_idle_teardown "localhost" 7007 initialState envOK (by decide)
    (by decide) rfl rfl

/-- The complete catalogue of per-send status traces of the embedded
`sendElement`: validation failure, connection timeout, fresh or reused
connection with successful or throwing transmit. -/
theorem sendElement_statuses (host : String) (port : ℚ) (st : SenderState)
    (env : SendEnv) :
    statusesOf (sendElement host port st env).2 = [ConnectionStatus.ERROR]
      ∨ statusesOf (sendElement host port st env).2 =
          [ConnectionStatus.CONNECTING, ConnectionStatus.ERROR]
      ∨ statusesOf (sendElement host port st env).2 =
          [ConnectionStatus.CONNECTING, ConnectionStatus.CONNECTED,
            ConnectionStatus.SENDING, ConnectionStatus.SENT]
      ∨ statusesOf (sendElement host port st env).2 =
          [ConnectionStatus.CONNECTED, ConnectionStatus.SENDING,
            ConnectionStatus.SENT]
      ∨ statusesOf (sendElement host port st env).2 =
          [ConnectionStatus.CONNECTING, ConnectionStatus.CONNECTED,
            ConnectionStatus.SENDING, ConnectionStatus.ERROR]
      ∨ statusesOf (sendElement host port st env).2 =
          [ConnectionStatus.CONNECTED, ConnectionStatus.SENDING,
            ConnectionStatus.ERROR] := by
  have hc := clearIdleTimer_fields st
  by_cases h1 : (host = "" ∨ jsTrim host = "")
      ∨ (port = 0 ∨ port ≤ 0 ∨ 65535 < port)
  · have hh := handleConnectionChange_invalid host port
      (clearIdleTimer st).1 h1
    have hE := ensureConnection_handleFail host port (clearIdleTimer st).1
      _ _ env hh
    have hS := sendElement_fail host port st _ _ env hE
    left
    rw [hS, statusesOf_append, hc.2.2.2.2.2.1]
    rfl
  · obtain ⟨hhost, hport⟩ := not_or.mp h1
    have hok := handleConnectionChange_ok_of_valid host port
      (clearIdleTimer st).1 hhost hport
    have hfacts := handleConnectionChange_ok_facts host port
      (clearIdleTimer st).1 hc.2.2.2.1 hok
    have hh : handleConnectionChange host port (clearIdleTimer st).1 =
        (true, (handleConnectionChange host port (clearIdleTimer st).1).2.1,
          (handleConnectionChange host port (clearIdleTimer st).1).2.2) := by
      rw [← hok]
    cases hconn : isConnected (handleConnectionChange host port
        (clearIdleTimer st).1).2.1
    · have hE := ensureConnection_attempt host port (clearIdleTimer st).1
        _ _ env hh hconn hfacts.2.2.1
      cases hop : env.opensInTime
      · rw [hop, if_neg (by simp)] at hE
        have hS := sendElement_fail host port st _ _ env hE
        right
        left
        rw [hS, statusesOf_append, hc.2.2.2.2.2.1, statusesOf_append,
          hfacts.2.2.2.2.1]
        rfl
      · rw [hop, if_pos rfl] at hE
        have hS := sendElement_sendPhase host port st _ _ env
          (Socket.mk (handleConnectionChange host port
            (clearIdleTimer st).1).2.1.nextId true) hE (by simp)
        cases hth : env.sendThrows
        · rw [hth, if_neg (by simp)] at hS
          right
          right
          left
          rw [hS]
          simp [statusesOf_append, hc.2.2.2.2.2.1, hfacts.2.2.2.2.1,
            statusesOf]
        · rw [hth, if_pos rfl] at hS
          right
          right
          right
          right
          left
          rw [hS]
          simp [statusesOf_append, hc.2.2.2.2.2.1, hfacts.2.2.2.2.1,
            statusesOf]
    · have hE := ensureConnection_reuse host port (clearIdleTimer st).1
        _ _ env hh hconn
      obtain ⟨sock, hws⟩ : ∃ sock, (handleConnectionChange host port
          (clearIdleTimer st).1).2.1.ws = some sock := by
        revert hconn
        rw [isConnected]
        cases hw : (handleConnectionChange host port
            (clearIdleTimer st).1).2.1.ws
        · intro hcontra
          exact Bool.noConfusion hcontra
        · intro _
          exact ⟨_, rfl⟩
      have hS := sendElement_sendPhase host port st _ _ env sock hE hws
      cases hth : env.sendThrows
      · rw [hth, if_neg (by simp)] at hS
        right
        right
        right
        left
        rw [hS]
        simp [statusesOf_append, hc.2.2.2.2.2.1, hfacts.2.2.2.2.1,
          statusesOf]
      · rw [hth, if_pos rfl] at hS
        right
        right
        right
        right
        right
        rw [hS]
        simp [statusesOf_append, hc.2.2.2.2.2.1, hfacts.2.2.2.2.1,
          statusesOf]

/-- C6 counterexample: a send that reuses an already-open connection emits
`CONNECTED, SENDING, SENT` — neither the full fixed order (it skips
`CONNECTING`) nor a prefix of it truncated by an `ERROR` — so the strict
reading of the claimed trace set is violated. -/
theorem c6_status_order_counterexample :
    statusesOf (sendElement "localhost" 7007
        (sendElement "localhost" 7007 initialState envOK).1 envOK).2 =
      [ConnectionStatus.CONNECTED, ConnectionStatus.SENDING,
        ConnectionStatus.SENT]
      ∧ strictClaimedTrace
          [ConnectionStatus.CONNECTED, ConnectionStatus.SENDING,
            ConnectionStatus.SENT] = false := by
  exact ⟨by decide, by decide⟩

/-- C6 (amended): the status callbacks of a single send are emitted in the
relative order `CONNECTING, CONNECTED, SENDING, SENT` — `CONNECTING`
being omitted when an already-open connection is reused — or such a
sequence truncated at the point of failure by a single final `ERROR`. -/
theorem c6_status_order (host : String) (port : ℚ) (st : SenderState)
    (env : SendEnv) :
    (statusesOf (sendElement host port st env).2).Sublist fullStatusOrder
      ∨ ∃ pre, statusesOf (sendElement host port st env).2 =
            pre ++ [ConnectionStatus.ERROR]
          ∧ pre.Sublist [ConnectionStatus.CONNECTING,
              ConnectionStatus.CONNECTED, ConnectionStatus.SENDING] := by
  rcases sendElement_statuses host port st env with h | h | h | h | h | h
  · right
    exact ⟨[], by rw [h]; rfl, by decide⟩
  · right
    exact ⟨[ConnectionStatus.CONNECTING], by rw [h]; rfl, by decide⟩
  · left
    rw [h]
    decide
  · left
    rw [h]
    decide
  · right
    exact ⟨[ConnectionStatus.CONNECTING, ConnectionStatus.CONNECTED,
      ConnectionStatus.SENDING], by rw [h]; rfl, by decide⟩
  · right
    exact ⟨[ConnectionStatus.CONNECTED, ConnectionStatus.SENDING],
      by rw [h]; rfl, by decide⟩

/-- C9 witness: tab 5 receives an entry holding the matched rule, and
closing a tab removes its entry. -/
theorem c9_route_tracking_witness :
    handleDomElementPointed parseHost105 rxNone cfg22002
        "https://10.0.0.5:22002/x" (some 5) emptyStore 5 =
      some (getEndpointForUrl parseHost105 rxNone cfg22002
        "https://10.0.0.5:22002/x").route
      ∧ handleTabRemoved 5
          (storeSet emptyStore 5 (some r22002)) 5 = none := by
  have h := c9_route_tracking parseHost105 rxNone cfg22002
      "https://10.0.0.5:22002/x" 5 emptyStore (by decide)
  exact ⟨h.1, h.2 5 (storeSet emptyStore 5 (some r22002))⟩

end MCPPointer
